import Mathlib

/-!
Shallow embedding of the protrust protoc plugin's Rust code generator
(src/protrustc/src/protrust/compiler), together with theorems settling the
specification's claims about naming and escaping, wire-format tags, per-field
emission shapes, enum Debug emission, message inner-item emission, generator
option parsing, output file naming, and the driver's success behaviour.

Printer output is modelled as the sequence of payload strings handed to the
printer (indentation levels are elided; they carry no claim content). Braces
that occur in generated Rust text are written with hex escapes.
-/

namespace Protrust

/-! ## Descriptor data model (the external protobuf API, as the engine reads it) -/

/-- The data `GetRustType` / `GetDefaultValue` (rust_helpers.cpp) read off a
message- or enum-typed field's target descriptor: the target's simple name,
whether `field->file() == target->file()`, the target file's name, and the
simple names of the target's containing-message chain, innermost first (the
order the source pushes them before iterating in reverse). -/
structure TypeTarget where
  name : String
  sameFile : Bool
  fileName : String
  ancestors : List String
deriving DecidableEq

/-- The type `FieldDescriptor::Type`: the 18 protobuf field kinds. Group, message and
enum fields carry the target-type data the path helpers need. -/
inductive FieldType where
  | double
  | float
  | int64
  | uint64
  | int32
  | fixed64
  | fixed32
  | bool
  | string
  | group (target : TypeTarget)
  | message (target : TypeTarget)
  | bytes
  | uint32
  | enum (target : TypeTarget)
  | sfixed32
  | sfixed64
  | sint32
  | sint64
deriving DecidableEq

/-- The numeric value of each `FieldDescriptor::Type` enumerator
(google/protobuf/descriptor.h; the enum mirrors descriptor.proto). -/
def FieldType.code : FieldType → Nat
  | .double => 1
  | .float => 2
  | .int64 => 3
  | .uint64 => 4
  | .int32 => 5
  | .fixed64 => 6
  | .fixed32 => 7
  | .bool => 8
  | .string => 9
  | .group _ => 10
  | .message _ => 11
  | .bytes => 12
  | .uint32 => 13
  | .enum _ => 14
  | .sfixed32 => 15
  | .sfixed64 => 16
  | .sint32 => 17
  | .sint64 => 18

/-- The check `field->message_type() != NULL` holds exactly for message and group
fields. -/
def FieldType.hasMessageTarget : FieldType → Bool
  | .message _ => true
  | .group _ => true
  | _ => false

/-- A `FieldDescriptor` restricted to the data the generator reads: simple
name, field number, type, labels, the resolved packed option, the syntax of
the containing file (`IsProto2File(field->file())`), and the typed
default-value accessors. The textual forms of floating-point defaults
(`std::to_string` output) are carried as data, since the engine only copies
them. -/
structure Field where
  name : String
  number : Nat
  type : FieldType
  isRepeated : Bool := false
  isMap : Bool := false
  packedOption : Bool := false
  proto2 : Bool := false
  defaultBool : Bool := false
  defaultInt : Int := 0
  defaultUInt : Nat := 0
  defaultDoubleRepr : String := "0.000000"
  defaultFloatRepr : String := "0.000000"
  defaultString : String := ""
  defaultEnumValueName : String := ""
deriving DecidableEq

/-- Modelled from the spec: `FieldDescriptor::is_packable` of the external
descriptor model — a field is packable when it is repeated and its type has a
packable wire representation (everything except strings, bytes, messages and
groups). -/
def FieldType.isPackable : FieldType → Bool
  | .string => false
  | .bytes => false
  | .message _ => false
  | .group _ => false
  | _ => true

def Field.is_packable (f : Field) : Bool :=
  f.isRepeated && f.type.isPackable

/-- Modelled from the spec: `FieldDescriptor::is_packed` — false for
non-packable fields; for packable fields, the resolved packed option
(proto3 default or an explicit `[packed=true]`), carried as
`Field.packedOption`. -/
def Field.is_packed (f : Field) : Bool :=
  f.is_packable && f.packedOption

/-- An `EnumValueDescriptor`: simple name and number. -/
structure EnumValue where
  name : String
  number : Int
deriving DecidableEq

/-- An `EnumDescriptor`: simple name and ordered values. -/
structure EnumDesc where
  name : String
  values : List EnumValue
deriving DecidableEq

/-- A message `Descriptor` restricted to what the message generator reads:
simple name, ordered fields, nested types, nested enums, extension
declarations, and the oneof / extension-range counts. -/
inductive MessageDesc where
  | mk (name : String) (fields : List Field) (nested : List MessageDesc)
       (enums : List EnumDesc) (extensions : List Field)
       (oneofDeclCount : Nat) (extensionRangeCount : Nat)

def MessageDesc.name : MessageDesc → String
  | .mk n _ _ _ _ _ _ => n

def MessageDesc.fields : MessageDesc → List Field
  | .mk _ f _ _ _ _ _ => f

def MessageDesc.nested : MessageDesc → List MessageDesc
  | .mk _ _ n _ _ _ _ => n

def MessageDesc.enums : MessageDesc → List EnumDesc
  | .mk _ _ _ e _ _ _ => e

def MessageDesc.extensions : MessageDesc → List Field
  | .mk _ _ _ _ x _ _ => x

def MessageDesc.oneofDeclCount : MessageDesc → Nat
  | .mk _ _ _ _ _ o _ => o

def MessageDesc.extensionRangeCount : MessageDesc → Nat
  | .mk _ _ _ _ _ _ r => r

/-- A `FileDescriptor` restricted to what the output-path helpers read. -/
structure FileDesc where
  name : String
deriving DecidableEq

/-! ## Naming and escaping (rust_helpers.cpp, rust_names.h) -/

/-- The fixed reserved-word set of `Escape` (rust_helpers.cpp lines 260-267). -/
def rustKeywords : List String :=
  ["as", "break", "const", "continue", "else", "enum", "false", "fn",
   "for", "if", "impl", "in", "let", "loop", "match", "mod", "move", "mut",
   "pub", "ref", "return", "static", "struct", "trait", "true", "type", "unsafe",
   "use", "where", "while", "dyn", "abstract", "become", "box", "do", "final",
   "macro", "override", "priv", "typeof", "unsized", "virtual", "yield", "async",
   "await", "try"]

/-- Embeds `Escape` (rust_helpers.cpp): prefix a reserved word with the raw-identifier
marker, leave every other string unchanged. -/
def Escape (s : String) : String :=
  if rustKeywords.contains s then "r#" ++ s else s

/-- ASCII uppercase test, as the source's character-range comparisons. -/
def isUpperAZ (c : Char) : Bool :=
  65 ≤ c.toNat && c.toNat ≤ 90

/-- ASCII lowercase test. -/
def isLowerAZ (c : Char) : Bool :=
  97 ≤ c.toNat && c.toNat ≤ 122

/-- The source's `input[i] + ('a' - 'A')` on an uppercase ASCII letter. -/
def lowerOf (c : Char) : Char :=
  Char.ofNat (c.toNat + 32)

/-- C `toupper` restricted to ASCII, as applied to identifier characters. -/
def toUpperAscii (c : Char) : Char :=
  if isLowerAZ c then Char.ofNat (c.toNat - 32) else c

/-- The loop body of `GetMessageModName` (rust_helpers.cpp lines 13-29):
walks the characters with their index; `last_capped` is the loop's flag,
declared `false` and never reassigned anywhere in the source loop, so it is
threaded through unchanged. -/
def messageModNameAux : List Char → Nat → Bool → String
  | [], _, _ => ""
  | c :: rest, i, lastCapped =>
      (if isUpperAZ c then
        (if i ≠ 0 && !lastCapped then "_" else "") ++ String.singleton (lowerOf c)
      else String.singleton c) ++ messageModNameAux rest (i + 1) lastCapped

/-- Embeds `GetMessageModName` (rust_helpers.cpp), over the descriptor's simple
name. -/
def GetMessageModName (name : String) : String :=
  messageModNameAux name.toList 0 false

/-- Embeds `GetEnumValueName` (rust_helpers.cpp line 31). -/
def GetEnumValueName (name : String) : String :=
  Escape name

/-- Embeds `GetFileDirPath` (rust_helpers.cpp line 43). -/
def GetFileDirPath (file : FileDesc) : String :=
  file.name

/-- Embeds `GetOutputFilePath` (rust_helpers.cpp lines 35-41): directory path, slash, then
the import-name argument, and a hard-coded ".rs" suffix. -/
def GetOutputFilePath (file : FileDesc) (importName : String) : String :=
  GetFileDirPath file ++ "/" ++ importName ++ ".rs"

/-- Embeds `GetFileModName` (rust_helpers.cpp lines 47-59): keep ASCII letters,
replace every other character with an underscore. -/
def GetFileModName (fileName : String) : String :=
  String.mk (fileName.toList.map fun c => if isUpperAZ c || isLowerAZ c then c else '_')

/-- Embeds `GetFieldNumberName` (rust_helpers.cpp lines 277-284): character-wise
uppercase of the field name, then "_NUMBER". -/
def GetFieldNumberName (f : Field) : String :=
  String.mk (f.name.toList.map toUpperAscii) ++ "_NUMBER"

/-- Embeds `GetFieldDefaultName` (rust_helpers.cpp lines 286-293). -/
def GetFieldDefaultName (f : Field) : String :=
  String.mk (f.name.toList.map toUpperAscii) ++ "_DEFAULT"

/-- Embeds `GetMessageName` (rust_names.h). -/
def GetMessageName (name : String) : String :=
  Escape name

/-- Embeds `GetEnumName` (rust_names.h). -/
def GetEnumName (name : String) : String :=
  Escape name

/-- Embeds `GetFieldName` (rust_names.h). -/
def GetFieldName (f : Field) : String :=
  Escape f.name

/-! ## Wire helpers (rust_field_generator.h / .cpp) -/

def WT_VARINT : Nat := 0

def WT_BIT64 : Nat := 1

def WT_LENGTH_DELIMITED : Nat := 2

def WT_START_GROUP : Nat := 3

def WT_END_GROUP : Nat := 4

def WT_BIT32 : Nat := 5

/-- Embeds `GetWireType` (rust_field_generator.cpp lines 63-91): the switch over the
int-backed `FieldDescriptor::Type`; any value that is no enumerator reaches
the default case, which throws `std::invalid_argument("unknown field type")`,
modelled as the error branch. -/
def GetWireType (t : Nat) : Except String Nat :=
  match t with
  | 6 | 16 | 1 => .ok WT_BIT64
  | 7 | 15 | 2 => .ok WT_BIT32
  | 5 | 3 | 13 | 4 | 17 | 18 | 8 | 14 => .ok WT_VARINT
  | 11 | 12 | 9 => .ok WT_LENGTH_DELIMITED
  | 10 => .ok WT_START_GROUP
  | _ => .error "unknown field type"

/-- The same switch on the typed field kinds, which cover exactly the
enumerators, so no case can throw. -/
def wireTypeOf : FieldType → Nat
  | .fixed64 | .sfixed64 | .double => WT_BIT64
  | .fixed32 | .sfixed32 | .float => WT_BIT32
  | .int32 | .int64 | .uint32 | .uint64 | .sint32 | .sint64 | .bool | .enum _ => WT_VARINT
  | .message _ | .bytes | .string => WT_LENGTH_DELIMITED
  | .group _ => WT_START_GROUP

/-- Embeds `MakeTag` (rust_field_generator.cpp lines 93-95):
`static_cast<uint>((number << 3) | wt)`, modelled at unsigned 32-bit width. -/
def MakeTag (number : Nat) (wt : Nat) : Nat :=
  ((number <<< 3) ||| wt) % 2 ^ 32

/-! ## Type mapping (rust_helpers.cpp) -/

/-- The containing-chain walk shared by the `ENUM` / `MESSAGE` / `GROUP`
cases of `GetRustType` and `GetDefaultValue`: "__file::", the
"__imports::<file mod>::" hop when the target lives in another file, then
each ancestor's message module name, outermost first (the source pushes the
chain innermost-first and iterates it reversed). -/
def targetPathPre (t : TypeTarget) : String :=
  "__file::"
  ++ (if t.sameFile then "" else "__imports::" ++ GetFileModName t.fileName ++ "::")
  ++ String.join (t.ancestors.reverse.map fun p => GetMessageModName p ++ "::")

/-- Embeds `GetRustType` (rust_helpers.cpp lines 104-180). The source takes the
field descriptor but reads only its type (and, for enum/message/group, the
target data carried here inside `FieldType`). -/
def GetRustType (t : FieldType) : String :=
  match t with
  | .bool => "__prelude::bool"
  | .bytes => "__prelude::ByteVec"
  | .double => "__prelude::f64"
  | .enum tgt => targetPathPre tgt ++ GetEnumName tgt.name
  | .fixed32 | .uint32 => "__prelude::u32"
  | .fixed64 | .uint64 => "__prelude::u64"
  | .float => "__prelude::f32"
  | .group tgt | .message tgt => targetPathPre tgt ++ GetMessageName tgt.name
  | .int32 | .sfixed32 | .sint32 => "__prelude::i32"
  | .int64 | .sfixed64 | .sint64 => "__prelude::i64"
  | .string => "__prelude::String"

/-- Embeds `GetRawFieldType` (rust_helpers.cpp lines 61-102). -/
def GetRawFieldType (t : FieldType) : String :=
  match t with
  | .bool => "__prelude::pr::Bool"
  | .bytes => "__prelude::pr::Bytes<" ++ GetRustType t ++ ">"
  | .double => "__prelude::pr::Double"
  | .enum _ => "__prelude::pr::Enum<" ++ GetRustType t ++ ">"
  | .fixed32 => "__prelude::pr::Fixed32"
  | .fixed64 => "__prelude::pr::Fixed64"
  | .float => "__prelude::pr::Float"
  | .group _ => "__prelude::pr::Group<" ++ GetRustType t ++ ">"
  | .int32 => "__prelude::pr::Int32"
  | .int64 => "__prelude::pr::Int64"
  | .message _ => "__prelude::pr::Message<" ++ GetRustType t ++ ">"
  | .sfixed32 => "__prelude::pr::Sfixed32"
  | .sfixed64 => "__prelude::pr::Sfixed64"
  | .sint32 => "__prelude::pr::Sint32"
  | .sint64 => "__prelude::pr::Sint64"
  | .string => "__prelude::pr::String"
  | .uint32 => "__prelude::pr::Uint32"
  | .uint64 => "__prelude::pr::Uint64"

/-- Embeds `GetDefaultType` (rust_helpers.cpp lines 182-191). -/
def GetDefaultType (t : FieldType) : String :=
  match t with
  | .bytes => "&\x27static [__prelude::u8]"
  | .string => "&\x27static __prelude::str"
  | _ => GetRustType t

/-- Embeds `GetDefaultTypeRef` (rust_helpers.cpp lines 193-202). -/
def GetDefaultTypeRef (t : FieldType) : String :=
  match t with
  | .bytes => "&[__prelude::u8]"
  | .string => "&__prelude::str"
  | _ => GetRustType t

/-- Embeds `GetDefaultValue` (rust_helpers.cpp lines 204-257): the literal for the
field's default; the enum case walks the same containing chain as
`GetRustType` and appends the default value's escaped name. -/
def GetDefaultValue (f : Field) : String :=
  match f.type with
  | .bool => if f.defaultBool then "true" else "false"
  | .bytes => "b\"" ++ f.defaultString ++ "\""
  | .double => f.defaultDoubleRepr
  | .enum tgt =>
      targetPathPre tgt ++ GetEnumName tgt.name ++ "::" ++ GetEnumValueName f.defaultEnumValueName
  | .fixed32 | .uint32 => Nat.repr f.defaultUInt
  | .fixed64 | .uint64 => Nat.repr f.defaultUInt
  | .float => f.defaultFloatRepr
  | .int32 | .sfixed32 | .sint32 => Int.repr f.defaultInt
  | .int64 | .sfixed64 | .sint64 => Int.repr f.defaultInt
  | .string => "\"" ++ f.defaultString ++ "\""
  | .group _ | .message _ => ""

/-- Embeds `IsRustCopyable` (rust_helpers.h lines 32-42). -/
def IsRustCopyable (t : FieldType) : Bool :=
  match t with
  | .bytes | .group _ | .message _ | .string => false
  | _ => true

/-! ## Field generator dispatch (rust_field_generator.cpp lines 46-61) -/

inductive FieldGenKind where
  | map
  | repeated
  | message
  | primitive
deriving DecidableEq

/-- Embeds `CreateFieldGenerator`: repeated+map fields get the map generator,
other repeated fields the repeated generator, singular fields with a message
target the message generator, everything else the primitive generator. -/
def CreateFieldGenerator (f : Field) : FieldGenKind :=
  if f.isRepeated then
    if f.isMap then .map else .repeated
  else if f.type.hasMessageTarget then .message
  else .primitive

/-! ## Primitive field generator (rust_primitive_field_generator.cpp) -/

/-- Embeds `RustPrimitiveFieldGenerator::GenerateMergeBranches` (lines 19-39): one
match arm; the target is `get_or_insert_with` on the option under proto2 and
a plain mutable borrow under proto3. This generator escapes the field name
(`GetFieldName`). -/
def RustPrimitiveFieldGenerator.GenerateMergeBranches (f : Field) : List String :=
  let name := GetFieldName f
  let type := GetRawFieldType f.type
  let num := GetFieldNumberName f
  let tag := Nat.repr (MakeTag f.number (wireTypeOf f.type))
  if f.proto2 then
    [tag ++ " => field.merge_value::<" ++ type ++ ">(Self::" ++ num ++
      ", self." ++ name ++ ".get_or_insert_with(__prelude::Default::default))?,\n"]
  else
    [tag ++ " => field.merge_value::<" ++ type ++ ">(Self::" ++ num ++
      ", &mut self." ++ name ++ ")?,\n"]

/-- Embeds `RustPrimitiveFieldGenerator::GenerateItems` (lines 49-124): the printed
accessor surface, one list entry per generated item (the list's join is the
exact printed payload). -/
def RustPrimitiveFieldGenerator.GenerateItems (f : Field) : List String :=
  let name := GetFieldName f
  let nameNoescp := f.name
  let type := GetRustType f.type
  let dflt := GetFieldDefaultName f
  let dfltType := GetDefaultType f.type
  let dfltRef := GetDefaultTypeRef f.type
  let dfltVal := GetDefaultValue f
  if f.proto2 then
    if IsRustCopyable f.type then
      ["pub const " ++ dflt ++ ": " ++ dfltType ++ " = " ++ dfltVal ++ ";\n",
       "pub fn " ++ name ++ "(&self) -> " ++ dfltRef ++ " \x7b\n  self." ++ name ++
         ".unwrap_or(Self::" ++ dflt ++ ")\n\x7d\n",
       "pub fn " ++ nameNoescp ++ "_option(&self) -> __prelude::Option<&" ++ type ++
         "> \x7b\n  self." ++ name ++ ".as_ref()\n\x7d\n",
       "pub fn " ++ nameNoescp ++ "_mut(&mut self) -> &mut " ++ type ++
         " \x7b\n  self." ++ name ++ ".get_or_insert_with(__prelude::Default::default)\n\x7d\n",
       "pub fn has_" ++ nameNoescp ++ "(&self) -> bool \x7b\n  self." ++ name ++
         ".is_some()\n\x7d\n",
       "pub fn set_" ++ nameNoescp ++ "(&mut self, value: " ++ type ++
         ") \x7b\n  self." ++ name ++ " = __prelude::Some(__prelude::From::from(value))\n\x7d\n",
       "pub fn take_" ++ nameNoescp ++ "(&mut self) -> __prelude::Option<" ++ type ++
         "> \x7b\n  self." ++ name ++ ".take()\n\x7d\n",
       "pub fn clear_" ++ nameNoescp ++ "(&mut self) \x7b\n  self." ++ name ++
         " = __prelude::None\n\x7d\n"]
    else
      ["pub const " ++ dflt ++ ": " ++ dfltType ++ " = " ++ dfltVal ++ ";\n",
       "pub fn " ++ name ++ "(&self) -> " ++ dfltRef ++ " \x7b\n  self." ++ name ++
         ".as_ref().map_or(Self::" ++ dflt ++ ", __prelude::AsRef::as_ref)\n\x7d\n",
       "pub fn " ++ nameNoescp ++ "_option(&self) -> __prelude::Option<&" ++ type ++
         "> \x7b\n  self." ++ name ++ ".as_ref()\n\x7d\n",
       "pub fn " ++ nameNoescp ++ "_mut(&mut self) -> &mut " ++ type ++
         " \x7b\n  self." ++ name ++ ".get_or_insert_with(__prelude::Default::default)\n\x7d\n",
       "pub fn has_" ++ nameNoescp ++ "(&self) -> bool \x7b\n  self." ++ name ++
         ".is_some()\n\x7d\n",
       "pub fn set_" ++ nameNoescp ++ "(&mut self, value: " ++ type ++
         ") \x7b\n  self." ++ name ++ " = __prelude::Some(__prelude::From::from(value))\n\x7d\n",
       "pub fn take_" ++ nameNoescp ++ "(&mut self) -> __prelude::Option<" ++ type ++
         "> \x7b\n  self." ++ name ++ ".take()\n\x7d\n",
       "pub fn clear_" ++ nameNoescp ++ "(&mut self) \x7b\n  self." ++ name ++
         " = __prelude::None\n\x7d\n"]
  else
    ["pub static " ++ dflt ++ ": " ++ dfltType ++ " = " ++ dfltVal ++ ";\n",
     "pub fn " ++ name ++ "(&self) -> &" ++ type ++ " \x7b\n  &self." ++ name ++ "\n\x7d\n",
     "pub fn " ++ name ++ "_mut(&mut self) -> &mut " ++ type ++
       " \x7b\n  &mut self." ++ name ++ "\n\x7d\n"]

/-- Embeds `RustPrimitiveFieldGenerator::GetFieldType` (lines 129-136): the struct
member type — `Option<V>` when the field's file is proto2, bare `V`
otherwise. -/
def RustPrimitiveFieldGenerator.GetFieldType (f : Field) : String :=
  if f.proto2 then "__prelude::Option<" ++ GetRustType f.type ++ ">"
  else GetRustType f.type

/-! ## Repeated field generator (rust_repeated_field_generator.cpp) -/

/-- Embeds `RustRepeatedFieldGenerator::GetImplGenericArg` (line 134). The map
subclass overrides this with the key/value tuple; no claim touches map
fields, so only the repeated instantiation is embedded. -/
def RustRepeatedFieldGenerator.GetImplGenericArg (f : Field) : String :=
  GetRawFieldType f.type

/-- Embeds `RustRepeatedFieldGenerator::GenerateMergeBranches` (lines 21-53): two
arms for a packable field — the `Packed` arm first exactly when `is_packed()`
— and one arm otherwise. This generator reads the raw `field->name()` (no
escaping). -/
def RustRepeatedFieldGenerator.GenerateMergeBranches (f : Field) : List String :=
  let name := f.name
  let arg := RustRepeatedFieldGenerator.GetImplGenericArg f
  let num := GetFieldNumberName f
  let unpacked := Nat.repr (MakeTag f.number (wireTypeOf f.type))
  let unpackedArm := unpacked ++ " => field.add_entries_to::<_, " ++ arg ++
    ">(Self::" ++ num ++ ", &mut self." ++ name ++ ")?,\n"
  if f.is_packable then
    let packed := Nat.repr (MakeTag f.number WT_LENGTH_DELIMITED)
    let packedArm := packed ++ " => field.add_entries_to::<_, __prelude::pr::Packed<" ++
      arg ++ ">>(Self::" ++ num ++ ", &mut self." ++ name ++ ")?,\n"
    if f.is_packed then [packedArm, unpackedArm] else [unpackedArm, packedArm]
  else
    [unpackedArm]

/-- Embeds `RustRepeatedFieldGenerator::GenerateCalculateSize` (lines 55-72); raw
`field->name()`. -/
def RustRepeatedFieldGenerator.GenerateCalculateSize (f : Field) : String :=
  let name := f.name
  let arg := RustRepeatedFieldGenerator.GetImplGenericArg f
  let num := GetFieldNumberName f
  if f.is_packed then
    "builder = builder.add_values::<_, __prelude::pr::Packed<" ++ arg ++
      ">>(Self::" ++ num ++ ", &self." ++ name ++ ")?;\n"
  else
    "builder = builder.add_values::<_, " ++ arg ++ ">(Self::" ++ num ++
      ", &self." ++ name ++ ")?;\n"

/-- Embeds `RustRepeatedFieldGenerator::GenerateWriteTo` (lines 74-91); raw
`field->name()`. -/
def RustRepeatedFieldGenerator.GenerateWriteTo (f : Field) : String :=
  let name := f.name
  let arg := RustRepeatedFieldGenerator.GetImplGenericArg f
  let num := GetFieldNumberName f
  if f.is_packed then
    "output.write_values::<_, __prelude::pr::Packed<" ++ arg ++ ">>(Self::" ++
      num ++ ", &self." ++ name ++ ")?;\n"
  else
    "output.write_values::<_, " ++ arg ++ ">(Self::" ++ num ++ ", &self." ++
      name ++ ")?;\n"

/-- Embeds `RustRepeatedFieldGenerator::GenerateIsInitialized` (lines 93-100); raw
`field->name()`. -/
def RustRepeatedFieldGenerator.GenerateIsInitialized (f : Field) : String :=
  "if !__prelude::p::is_initialized(&self." ++ f.name ++
    ") \x7b\n  return false;\n\x7d\n"

/-! ## Singular message field generator (rust_message_field_generator.cpp) -/

/-- Embeds `RustMessageFieldGenerator::GenerateMergeBranches` (lines 19-36); raw
`field->name()`. -/
def RustMessageFieldGenerator.GenerateMergeBranches (f : Field) : List String :=
  let name := f.name
  let type := GetRawFieldType f.type
  let num := GetFieldNumberName f
  let tag := Nat.repr (MakeTag f.number (wireTypeOf f.type))
  [tag ++ " =>\n  match &mut self." ++ name ++ " \x7b\n    __prelude::Some(v) => field.merge_value::<" ++
    type ++ ">(Self::" ++ num ++ ", v)?,\n    opt @ __prelude::None => *opt = __prelude::Some(__prelude::Box::new(field.read_value::<" ++
    type ++ ">(Self::" ++ num ++ ")?)),\n  \x7d,\n"]

/-- Embeds `RustMessageFieldGenerator::GetFieldType` (lines 78-80). -/
def RustMessageFieldGenerator.GetFieldType (f : Field) : String :=
  "__prelude::Option<__prelude::Box<" ++ GetRustType f.type ++ ">>"

/-! ## Enum generator (rust_enum_generator.cpp) -/

/-- The `Debug` implementation section of `RustEnumGenerator::Generate`
(lines 67-102), as the ordered sequence of printed payloads: the impl and
`fmt` headers, the single payload carrying the `#[allow(unreachable_patterns)]`
attribute together with the `match *self` header, one arm per declared value
in descriptor order, the integer catch-all, and the three closing braces. -/
def RustEnumGenerator.debugImplLines (e : EnumDesc) : List String :=
  ["impl __prelude::Debug for " ++ GetEnumName e.name ++ " \x7b\n",
   "fn fmt(&self, f: &mut __prelude::Formatter) -> __prelude::fmt::Result \x7b\n",
   "#[allow(unreachable_patterns)]\nmatch *self \x7b\n"]
  ++ e.values.map (fun v =>
      "Self::" ++ GetEnumValueName v.name ++ " => f.write_str(\"" ++
        GetEnumValueName v.name ++ "\"),\n")
  ++ ["Self(x) => x.fmt(f),\n", "\x7d\n", "\x7d\n", "\x7d\n"]

/-! ## Message generator, inner-items section (rust_message_generator.cpp) -/

/-- Embeds `HasInnerItems` (rust_helpers.h lines 17-23). -/
def HasInnerItems (m : MessageDesc) : Bool :=
  m.nested.length != 0 || m.enums.length != 0 || m.extensions.length != 0 ||
    m.oneofDeclCount != 0

/-- One emission step of the nested `pub mod` body that
`RustMessageGenerator::Generate` produces when `HasInnerItems` holds
(lines 243-275): a recursively generated nested message, a nested enum, or
one extension emission tagged with the descriptor the loop draws it from. -/
inductive InnerEmission where
  | nestedMessage (name : String)
  | nestedEnum (name : String)
  | extensionFrom (source : Option Field)
deriving DecidableEq

/-- The emission sequence inside the nested module (lines 255-269), after the
preamble: nested messages in descriptor order, then nested enums, then the
extension loop. The extension loop is bounded by `extension_count()` but
indexes `message->field(i)`; `extensionFrom none` marks an iteration whose
index lies outside the field range — in the C++ an out-of-bounds descriptor
access. -/
def RustMessageGenerator.innerEmissions (m : MessageDesc) : List InnerEmission :=
  m.nested.map (fun d => .nestedMessage d.name)
  ++ m.enums.map (fun e => .nestedEnum e.name)
  ++ (List.range m.extensions.length).map (fun i => .extensionFrom m.fields[i]?)

/-- The descriptors driving the extension emissions alone (lines 265-269). -/
def RustMessageGenerator.extensionEmissionSources (m : MessageDesc) : List (Option Field) :=
  (List.range m.extensions.length).map (fun i => m.fields[i]?)

/-! ## Generator options and the driver (rust_options.h, rust_generator.cpp,
rust_mod_generator.cpp) -/

/-- Embeds `Options` (rust_options.h): default file extension ".rs", empty import
list. -/
structure Options where
  file_extension : String := ".rs"
  imports : List String := []
deriving DecidableEq

/-- Structural single-character splitter over a character list — used to model
the external comma splitter and the `getline` loop. Splitting never yields an
empty list. -/
def splitCharList (sep : Char) : List Char → List (List Char)
  | [] => [[]]
  | c :: rest =>
    match splitCharList sep rest with
    | [] => [[]]
    | h :: t => if c = sep then [] :: h :: t else (c :: h) :: t

/-- Modelled from the spec: `ParseGeneratorParameter` of the external
protobuf compiler library, which the spec describes as splitting the
parameter string into comma-separated `key=value` pairs; a pair without an
equals sign is a bare key with empty value, and the value is everything after
the first equals sign. An empty parameter yields no pairs. -/
def ParseGeneratorParameter (s : String) : List (String × String) :=
  if s = "" then []
  else (splitCharList ',' s.toList).map fun part =>
    (String.mk (part.takeWhile (fun c => c != '=')),
     String.mk ((part.dropWhile (fun c => c != '=')).drop 1))

/-- The `while (getline(ss, buf, ','))` loop splitting an `imports` value
(rust_generator.cpp lines 45-50): like comma splitting, except that an empty
value yields nothing and a trailing comma contributes no empty segment
(`getline` fails at end of stream). -/
def getlineCommaSplit (s : String) : List String :=
  if s = "" then []
  else
    let parts := (splitCharList ',' s.toList).map String.mk
    if s.toList.getLast? = some ',' then parts.dropLast else parts

/-- The option loop of `RustGenerator::GenerateAll` (rust_generator.cpp lines
41-55): assign `file_extension`, append comma-split `imports`, and fail on
the first unknown key with "Unknown generator option: <key>". -/
def RustGenerator.parseOptionsLoop : Options → List (String × String) → Except String Options
  | opts, [] => .ok opts
  | opts, (k, v) :: rest =>
    if k = "file_extension" then
      RustGenerator.parseOptionsLoop { opts with file_extension := v } rest
    else if k = "imports" then
      RustGenerator.parseOptionsLoop
        { opts with imports := opts.imports ++ getlineCommaSplit v } rest
    else
      .error ("Unknown generator option: " ++ k)

/-- The paths `RustModGenerator::Generate` (rust_mod_generator.cpp lines
24-41) opens through the context, in order: "mod.rs", then per input file the
per-file source path `GetOutputFilePath(file, "protrust")`. The path helper
takes no options, so the configured `file_extension` never reaches the output
names. -/
def RustModGenerator.openedPaths (files : List FileDesc) : List String :=
  "mod.rs" :: files.map (fun f => GetOutputFilePath f "protrust")

/-- The observable outcome of `GenerateAll`: the returned flag, the
out-parameter error string, and the opened output streams, each paired with
the health bit the external context reported for it. -/
structure GenerateAllResult where
  ok : Bool
  error : String
  opened : List (String × Bool)
deriving DecidableEq

/-- Embeds `RustGenerator::GenerateAll` (rust_generator.cpp lines 31-61): parse the
parameter; on an unknown option set the error and return false before any
generation; otherwise run the mod generator and return true. The `context`
function models the external `GeneratorContext`: it reports, per opened path,
whether the stream is healthy; the source never reads any such status — here
the bit is recorded into the response untouched. -/
def RustGenerator.GenerateAll (files : List FileDesc) (parameter : String)
    (context : String → Bool) : GenerateAllResult :=
  match RustGenerator.parseOptionsLoop {} (ParseGeneratorParameter parameter) with
  | .error e => { ok := false, error := e, opened := [] }
  | .ok _ =>
    { ok := true, error := "",
      opened := (RustModGenerator.openedPaths files).map fun p => (p, context p) }

/-! ## The `FieldDescriptor::Type` enumerator values (descriptor.h), named for
the wire-type table claims. -/

def TYPE_DOUBLE : Nat := 1

def TYPE_FLOAT : Nat := 2

def TYPE_INT64 : Nat := 3

def TYPE_UINT64 : Nat := 4

def TYPE_INT32 : Nat := 5

def TYPE_FIXED64 : Nat := 6

def TYPE_FIXED32 : Nat := 7

def TYPE_BOOL : Nat := 8

def TYPE_STRING : Nat := 9

def TYPE_GROUP : Nat := 10

def TYPE_MESSAGE : Nat := 11

def TYPE_BYTES : Nat := 12

def TYPE_UINT32 : Nat := 13

def TYPE_ENUM : Nat := 14

def TYPE_SFIXED32 : Nat := 15

def TYPE_SFIXED64 : Nat := 16

def TYPE_SINT32 : Nat := 17

def TYPE_SINT64 : Nat := 18

/-! ## Specification-side definitions (transcribed from the claims' words,
for comparison against the source embedding) -/

/-- Concatenation of a list of strings, used by the specification-side
name-derivation rules. -/
def flatStr : List String → String
  | [] => ""
  | s :: rest => s ++ flatStr rest

/-- Transcription of claim C5's rule: lowercase the simple name, inserting an
underscore before exactly those uppercase letters that are immediately
preceded by a lowercase letter; uppercase letters preceded by anything else
get no underscore. -/
def specSnakeClaim (s : String) : String :=
  let l := s.toList
  flatStr ((l.zip ((none : Option Char) :: l.map some)).map fun p =>
    if isUpperAZ p.1 then
      (if (p.2.map isLowerAZ).getD false then "_" else "") ++ String.singleton (lowerOf p.1)
    else String.singleton p.1)

/-- The amended C5 rule: an underscore before every uppercase letter except
one at index 0, and every uppercase letter lowercased. -/
def specSnakeAmended (s : String) : String :=
  flatStr (s.toList.enum.map fun p =>
    if isUpperAZ p.2 then
      (if p.1 ≠ 0 then "_" else "") ++ String.singleton (lowerOf p.2)
    else String.singleton p.2)

/-! ## Helper lemmas -/

/-- Every wire type the typed switch produces fits in three bits. -/
lemma wireTypeOf_lt (t : FieldType) : wireTypeOf t < 8 := by
  cases t <;> norm_num [wireTypeOf, WT_VARINT, WT_BIT64, WT_BIT32,
    WT_LENGTH_DELIMITED, WT_START_GROUP]

/-- For valid protobuf field numbers the 32-bit cast in `MakeTag` is the
identity, so the tag is the plain shift-or. -/
lemma MakeTag_eq_lor (n wt : Nat) (hn : n < 2 ^ 29) (hwt : wt < 8) :
    MakeTag n wt = (n <<< 3) ||| wt := by
  unfold MakeTag
  apply Nat.mod_eq_of_lt
  have h1 : n <<< 3 < 2 ^ 32 := by
    rw [Nat.shiftLeft_eq]
    calc n * 2 ^ 3 < 2 ^ 29 * 2 ^ 3 :=
          (Nat.mul_lt_mul_right (by norm_num)).mpr hn
    _ = 2 ^ 32 := by norm_num
  exact Nat.or_lt_two_pow h1 (lt_trans hwt (by norm_num))

/-- The message-mod loop with the never-reassigned flag, re-expressed over the
indexed character list. -/
lemma messageModNameAux_enumFrom (l : List Char) : ∀ i : Nat,
    messageModNameAux l i false =
      flatStr ((l.enumFrom i).map fun p =>
        if isUpperAZ p.2 then
          (if p.1 ≠ 0 then "_" else "") ++ String.singleton (lowerOf p.2)
        else String.singleton p.2) := by
  induction l with
  | nil => intro i; rfl
  | cons c rest ih =>
    intro i
    simp only [messageModNameAux, List.enumFrom, List.map_cons, flatStr, ih (i + 1),
      Bool.not_false, Bool.and_true, decide_eq_true_eq]

/-- A parameter key the option loop does not recognize. -/
def unknownKey (kv : String × String) : Bool :=
  !(kv.1 == "file_extension" || kv.1 == "imports")

/-- The option loop fails with the unknown-option message of the first
offending key. -/
lemma parseOptionsLoop_find_some :
    ∀ (l : List (String × String)) (opts : Options) (kv : String × String),
      l.find? unknownKey = some kv →
      RustGenerator.parseOptionsLoop opts l =
        .error ("Unknown generator option: " ++ kv.1) := by
  intro l
  induction l with
  | nil => intro opts kv h; simp [List.find?] at h
  | cons p rest ih =>
    intro opts kv h
    rcases p with ⟨k, v⟩
    by_cases hk1 : k = "file_extension"
    · have hneg : ¬ unknownKey (k, v) = true := by simp [unknownKey, hk1]
      rw [List.find?_cons_of_neg _ hneg] at h
      subst hk1
      simpa [RustGenerator.parseOptionsLoop] using ih _ kv h
    · by_cases hk2 : k = "imports"
      · have hneg : ¬ unknownKey (k, v) = true := by simp [unknownKey, hk2]
        rw [List.find?_cons_of_neg _ hneg] at h
        subst hk2
        simpa [RustGenerator.parseOptionsLoop, hk1] using ih _ kv h
      · have hu : unknownKey (k, v) = true := by
          simp [unknownKey, hk1, hk2]
        rw [List.find?_cons_of_pos _ hu] at h
        cases h
        simp [RustGenerator.parseOptionsLoop, hk1, hk2]

/-- With only recognized keys the option loop succeeds. -/
lemma parseOptionsLoop_find_none :
    ∀ (l : List (String × String)) (opts : Options),
      l.find? unknownKey = none →
      ∃ o, RustGenerator.parseOptionsLoop opts l = .ok o := by
  intro l
  induction l with
  | nil => intro opts _; exact ⟨opts, rfl⟩
  | cons p rest ih =>
    intro opts h
    rcases p with ⟨k, v⟩
    by_cases hk1 : k = "file_extension"
    · have hneg : ¬ unknownKey (k, v) = true := by simp [unknownKey, hk1]
      rw [List.find?_cons_of_neg _ hneg] at h
      subst hk1
      obtain ⟨o, ho⟩ := ih _ h
      exact ⟨o, by simpa [RustGenerator.parseOptionsLoop] using ho⟩
    · by_cases hk2 : k = "imports"
      · have hneg : ¬ unknownKey (k, v) = true := by simp [unknownKey, hk2]
        rw [List.find?_cons_of_neg _ hneg] at h
        subst hk2
        obtain ⟨o, ho⟩ := ih _ h
        exact ⟨o, by simpa [RustGenerator.parseOptionsLoop, hk1] using ho⟩
      · have hu : unknownKey (k, v) = true := by
          simp [unknownKey, hk1, hk2]
        rw [List.find?_cons_of_pos _ hu] at h
        cases h

/-! ## Concrete descriptors used by the claim theorems -/

/-- A proto3 `repeated int32 type = 1;` — its name is a reserved word. -/
def keywordRepeatedField : Field :=
  { name := "type", number := 1, type := .int32, isRepeated := true, packedOption := true }

/-- A singular message field named "match" (also a reserved word). -/
def keywordMessageField : Field :=
  { name := "match", number := 2,
    type := .message { name := "Inner", sameFile := true, fileName := "", ancestors := [] } }

/-- A proto3 `repeated int32 xs = 2 [packed]`-style field. -/
def packedIntField : Field :=
  { name := "xs", number := 2, type := .int32, isRepeated := true, packedOption := true }

/-- A repeated string field — repeated but not packable. -/
def strRepField : Field :=
  { name := "names", number := 3, type := .string, isRepeated := true }

/-- A proto2 singular `int32` field. -/
def proto2IntField : Field :=
  { name := "name", number := 1, type := .int32, proto2 := true }

/-- A proto3 singular `int32 count = 7;`. -/
def proto3IntField : Field :=
  { name := "count", number := 7, type := .int32 }

/-- An extension declaration used by the C6 messages. -/
def extDeclField : Field :=
  { name := "e", number := 1, type := .int32 }

/-- A message with one nested extension declaration and no fields. -/
def extNoFieldsMsg : MessageDesc :=
  .mk "M" [] [] [] [extDeclField] 0 1

/-- A message with one field ("x") and one extension declaration ("e"). -/
def extOneFieldMsg : MessageDesc :=
  .mk "N" [{ name := "x", number := 1, type := .int32 }] [] [] [extDeclField] 0 1

/-- The enum `E { true = 0; }` — its value name is a reserved word. -/
def keywordEnum : EnumDesc :=
  { name := "E", values := [{ name := "true", number := 0 }] }

/-- The input file "a.proto". -/
def protoFileA : FileDesc :=
  { name := "a.proto" }

/-! ## Claim theorems -/

set_option maxRecDepth 8192 in
/-- C1: the claim requires every occurrence of a reserved-word name in the
generated output to carry the `r#` marker — in particular the `self.<name>`
references in the merge, size, write and is-initialized branches of repeated
and singular-message fields. `Escape` does implement the 45-word table, but
those branches print the raw `field->name()`: for a repeated `int32` field
named "type" and a singular message field named "match" they emit
`self.type` / `self.match`, not the escaped identifier the struct member
declaration uses, so the generated Rust cannot even compile there. -/
theorem c1_keyword_branch_unescaped :
    Escape "type" = "r#type"
  ∧ RustRepeatedFieldGenerator.GenerateIsInitialized keywordRepeatedField =
      "if !__prelude::p::is_initialized(&self.type) \x7b\n  return false;\n\x7d\n"
  ∧ RustRepeatedFieldGenerator.GenerateMergeBranches keywordRepeatedField =
      ["10 => field.add_entries_to::<_, __prelude::pr::Packed<__prelude::pr::Int32>>(Self::TYPE_NUMBER, &mut self.type)?,\n",
       "8 => field.add_entries_to::<_, __prelude::pr::Int32>(Self::TYPE_NUMBER, &mut self.type)?,\n"]
  ∧ RustRepeatedFieldGenerator.GenerateCalculateSize keywordRepeatedField =
      "builder = builder.add_values::<_, __prelude::pr::Packed<__prelude::pr::Int32>>(Self::TYPE_NUMBER, &self.type)?;\n"
  ∧ RustRepeatedFieldGenerator.GenerateWriteTo keywordRepeatedField =
      "output.write_values::<_, __prelude::pr::Packed<__prelude::pr::Int32>>(Self::TYPE_NUMBER, &self.type)?;\n"
  ∧ RustMessageFieldGenerator.GenerateMergeBranches keywordMessageField =
      ["18 =>\n  match &mut self.match \x7b\n    __prelude::Some(v) => field.merge_value::<__prelude::pr::Message<__file::Inner>>(Self::MATCH_NUMBER, v)?,\n    opt @ __prelude::None => *opt = __prelude::Some(__prelude::Box::new(field.read_value::<__prelude::pr::Message<__file::Inner>>(Self::MATCH_NUMBER)?)),\n  \x7d,\n"]
  ∧ RustRepeatedFieldGenerator.GenerateIsInitialized keywordRepeatedField ≠
      "if !__prelude::p::is_initialized(&self." ++ Escape "type" ++
        ") \x7b\n  return false;\n\x7d\n" := by
  refine ⟨by decide, by decide, by decide, by decide, by decide, by decide, by decide⟩

/-- C5 counterexample: for the message name "AB" the code produces "a_b" —
an underscore before a non-initial uppercase letter even though the preceding
character is uppercase — while the claim's rule produces "ab". -/
theorem c5_counterexample :
    GetMessageModName "AB" = "a_b"
  ∧ specSnakeClaim "AB" = "ab"
  ∧ GetMessageModName "AB" ≠ specSnakeClaim "AB" := by
  refine ⟨rfl, rfl, ?_⟩
  decide

/-- C5 (amended): the message module name lowercases the simple name and
inserts an underscore before every uppercase letter except one at index 0,
regardless of what precedes it (the source's `last_capped` flag is never
set). -/
theorem c5_message_mod_name_amended (name : String) :
    GetMessageModName name = specSnakeAmended name := by
  unfold GetMessageModName specSnakeAmended
  exact messageModNameAux_enumFrom name.toList 0

/-- C6: the claim (and the file-level generator) drive the i-th extension
emission from the message's i-th extension descriptor, but the message
generator's loop — bounded by `extension_count()` — indexes
`message->field(i)`: for a message with one extension declaration and no
fields the loop reads field index 0 of an empty field list (an out-of-bounds
descriptor access), and with one field "x" and one extension "e" the emission
is driven from "x" rather than "e". -/
theorem c6_extension_loop_wrong_descriptor :
    HasInnerItems extNoFieldsMsg = true
  ∧ extNoFieldsMsg.extensions.length = 1
  ∧ RustMessageGenerator.extensionEmissionSources extNoFieldsMsg = [none]
  ∧ RustMessageGenerator.innerEmissions extNoFieldsMsg = [.extensionFrom none]
  ∧ (RustMessageGenerator.extensionEmissionSources extOneFieldMsg).map
      (fun o => o.map Field.name) = [some "x"]
  ∧ extOneFieldMsg.extensions.map Field.name = ["e"] := by
  refine ⟨rfl, rfl, rfl, rfl, rfl, rfl⟩

/-- C7 counterexample: for an enum value named "true" the Debug arm writes
the escaped name "r#true", not the literal declared value name; the arm the
claim requires does not occur anywhere in the emission. -/
theorem c7_counterexample :
    RustEnumGenerator.debugImplLines keywordEnum =
      ["impl __prelude::Debug for E \x7b\n",
       "fn fmt(&self, f: &mut __prelude::Formatter) -> __prelude::fmt::Result \x7b\n",
       "#[allow(unreachable_patterns)]\nmatch *self \x7b\n",
       "Self::r#true => f.write_str(\"r#true\"),\n",
       "Self(x) => x.fmt(f),\n", "\x7d\n", "\x7d\n", "\x7d\n"]
  ∧ "Self::true => f.write_str(\"true\"),\n" ∉
      RustEnumGenerator.debugImplLines keywordEnum := by
  refine ⟨rfl, ?_⟩
  decide

/-- C7 (amended): the Debug implementation is a match over `*self` with one
arm per declared value in descriptor order that writes the escaped value
name (`r#`-prefixed when the name is a reserved word, the declared name
itself otherwise), followed by the catch-all `Self(x) => x.fmt(f)`, and the
match is preceded by `#[allow(unreachable_patterns)]`. -/
theorem c7_debug_impl_amended (e : EnumDesc) :
    RustEnumGenerator.debugImplLines e =
      ["impl __prelude::Debug for " ++ Escape e.name ++ " \x7b\n",
       "fn fmt(&self, f: &mut __prelude::Formatter) -> __prelude::fmt::Result \x7b\n",
       "#[allow(unreachable_patterns)]\nmatch *self \x7b\n"]
      ++ e.values.map (fun v =>
          "Self::" ++ Escape v.name ++ " => f.write_str(\"" ++ Escape v.name ++ "\"),\n")
      ++ ["Self(x) => x.fmt(f),\n", "\x7d\n", "\x7d\n", "\x7d\n"] := by
  simp [RustEnumGenerator.debugImplLines, GetEnumValueName, GetEnumName]

/-- C9: with parameter "file_extension=.txt" the parsed option record does
carry ".txt", yet the per-file source is opened at "a.proto/protrust.rs":
`GetOutputFilePath` hard-codes the ".rs" suffix and never reads the options,
so the generated name does not end with the configured extension. -/
theorem c9_file_extension_ignored :
    RustGenerator.parseOptionsLoop {} (ParseGeneratorParameter "file_extension=.txt") =
      .ok { file_extension := ".txt", imports := [] }
  ∧ RustGenerator.GenerateAll [protoFileA] "file_extension=.txt" (fun _ => true) =
      { ok := true, error := "",
        opened := [("mod.rs", true), ("a.proto/protrust.rs", true)] }
  ∧ GetOutputFilePath protoFileA "protrust" = "a.proto/protrust.rs"
  ∧ List.isSuffixOf ".txt".toList "a.proto/protrust.rs".toList = false
  ∧ "a.proto/protrust.rs" ≠ "a.proto" ++ "/" ++ "protrust" ++ ".txt" := by
  refine ⟨rfl, rfl, rfl, ?_, ?_⟩ <;> decide

/-- C2: for a packable repeated field with number n and element type t the
merge match has exactly two arms — one tagged `(n<<3)|WireType(t)` calling
`add_entries_to` with the raw element type and one tagged `(n<<3)|2` calling
it with `Packed<raw element type>` — with the `Packed` arm first exactly when
`is_packed()` holds; a non-packable repeated field gets the single raw-typed
arm. -/
theorem c2_repeated_merge_arms (f : Field) (hrep : f.isRepeated = true)
    (hn : f.number < 2 ^ 29) :
    (f.is_packable = true →
      RustRepeatedFieldGenerator.GenerateMergeBranches f =
        if f.is_packed then
          [Nat.repr ((f.number <<< 3) ||| 2) ++
             " => field.add_entries_to::<_, __prelude::pr::Packed<" ++
             GetRawFieldType f.type ++ ">>(Self::" ++ GetFieldNumberName f ++
             ", &mut self." ++ f.name ++ ")?,\n",
           Nat.repr ((f.number <<< 3) ||| wireTypeOf f.type) ++
             " => field.add_entries_to::<_, " ++ GetRawFieldType f.type ++
             ">(Self::" ++ GetFieldNumberName f ++ ", &mut self." ++ f.name ++ ")?,\n"]
        else
          [Nat.repr ((f.number <<< 3) ||| wireTypeOf f.type) ++
             " => field.add_entries_to::<_, " ++ GetRawFieldType f.type ++
             ">(Self::" ++ GetFieldNumberName f ++ ", &mut self." ++ f.name ++ ")?,\n",
           Nat.repr ((f.number <<< 3) ||| 2) ++
             " => field.add_entries_to::<_, __prelude::pr::Packed<" ++
             GetRawFieldType f.type ++ ">>(Self::" ++ GetFieldNumberName f ++
             ", &mut self." ++ f.name ++ ")?,\n"])
  ∧ (f.is_packable = false →
      RustRepeatedFieldGenerator.GenerateMergeBranches f =
        [Nat.repr ((f.number <<< 3) ||| wireTypeOf f.type) ++
           " => field.add_entries_to::<_, " ++ GetRawFieldType f.type ++
           ">(Self::" ++ GetFieldNumberName f ++ ", &mut self." ++ f.name ++ ")?,\n"]) := by
  have hu : MakeTag f.number (wireTypeOf f.type) = (f.number <<< 3) ||| wireTypeOf f.type :=
    MakeTag_eq_lor _ _ hn (wireTypeOf_lt f.type)
  have hp : MakeTag f.number WT_LENGTH_DELIMITED = (f.number <<< 3) ||| 2 := by
    simpa [WT_LENGTH_DELIMITED] using
      MakeTag_eq_lor f.number WT_LENGTH_DELIMITED hn (by norm_num [WT_LENGTH_DELIMITED])
  constructor
  · intro hpk
    simp only [RustRepeatedFieldGenerator.GenerateMergeBranches,
      RustRepeatedFieldGenerator.GetImplGenericArg, hpk, if_true, hu, hp]
  · intro hpk
    simp only [RustRepeatedFieldGenerator.GenerateMergeBranches,
      RustRepeatedFieldGenerator.GetImplGenericArg, hpk, Bool.false_eq_true,
      if_false, hu]

/-- C2 witness: the packable repeated int32 field gets two arms and the
non-packable repeated string field one. -/
theorem c2_repeated_merge_arms_witness :
    (RustRepeatedFieldGenerator.GenerateMergeBranches packedIntField).length = 2
  ∧ (RustRepeatedFieldGenerator.GenerateMergeBranches strRepField).length = 1 := by
  constructor
  · rw [(c2_repeated_merge_arms packedIntField rfl (by decide)).1 (by decide)]
    decide
  · rw [(c2_repeated_merge_arms strRepField rfl (by decide)).2 (by decide)]
    decide

/-- C3: for a singular non-message (primitive) field, the syntax of the
field's own file governs the shape: under proto2 the member type is
`Option<V>`, a `pub const <NAME>_DEFAULT` is emitted and the accessor surface
is the getter, `_option`, `_mut`, `has_`, `set_`, `take_` and `clear_`
items; under proto3 the member type is bare `V`, a `pub static
<NAME>_DEFAULT` is emitted and only the borrowing getter and the mutable
getter follow. -/
theorem c3_primitive_field_syntax_shape (f : Field)
    (hk : CreateFieldGenerator f = .primitive) :
    (RustPrimitiveFieldGenerator.GetFieldType f =
      if f.proto2 then "__prelude::Option<" ++ GetRustType f.type ++ ">"
      else GetRustType f.type)
  ∧ (f.proto2 = true →
      RustPrimitiveFieldGenerator.GenerateItems f =
        ["pub const " ++ GetFieldDefaultName f ++ ": " ++ GetDefaultType f.type ++
           " = " ++ GetDefaultValue f ++ ";\n",
         (if IsRustCopyable f.type then
           "pub fn " ++ GetFieldName f ++ "(&self) -> " ++ GetDefaultTypeRef f.type ++
             " \x7b\n  self." ++ GetFieldName f ++ ".unwrap_or(Self::" ++
             GetFieldDefaultName f ++ ")\n\x7d\n"
         else
           "pub fn " ++ GetFieldName f ++ "(&self) -> " ++ GetDefaultTypeRef f.type ++
             " \x7b\n  self." ++ GetFieldName f ++ ".as_ref().map_or(Self::" ++
             GetFieldDefaultName f ++ ", __prelude::AsRef::as_ref)\n\x7d\n"),
         "pub fn " ++ f.name ++ "_option(&self) -> __prelude::Option<&" ++
           GetRustType f.type ++ "> \x7b\n  self." ++ GetFieldName f ++ ".as_ref()\n\x7d\n",
         "pub fn " ++ f.name ++ "_mut(&mut self) -> &mut " ++ GetRustType f.type ++
           " \x7b\n  self." ++ GetFieldName f ++
           ".get_or_insert_with(__prelude::Default::default)\n\x7d\n",
         "pub fn has_" ++ f.name ++ "(&self) -> bool \x7b\n  self." ++ GetFieldName f ++
           ".is_some()\n\x7d\n",
         "pub fn set_" ++ f.name ++ "(&mut self, value: " ++ GetRustType f.type ++
           ") \x7b\n  self." ++ GetFieldName f ++
           " = __prelude::Some(__prelude::From::from(value))\n\x7d\n",
         "pub fn take_" ++ f.name ++ "(&mut self) -> __prelude::Option<" ++
           GetRustType f.type ++ "> \x7b\n  self." ++ GetFieldName f ++ ".take()\n\x7d\n",
         "pub fn clear_" ++ f.name ++ "(&mut self) \x7b\n  self." ++ GetFieldName f ++
           " = __prelude::None\n\x7d\n"])
  ∧ (f.proto2 = false →
      RustPrimitiveFieldGenerator.GenerateItems f =
        ["pub static " ++ GetFieldDefaultName f ++ ": " ++ GetDefaultType f.type ++
           " = " ++ GetDefaultValue f ++ ";\n",
         "pub fn " ++ GetFieldName f ++ "(&self) -> &" ++ GetRustType f.type ++
           " \x7b\n  &self." ++ GetFieldName f ++ "\n\x7d\n",
         "pub fn " ++ GetFieldName f ++ "_mut(&mut self) -> &mut " ++ GetRustType f.type ++
           " \x7b\n  &mut self." ++ GetFieldName f ++ "\n\x7d\n"]) := by
  refine ⟨rfl, ?_, ?_⟩
  · intro hp
    simp only [RustPrimitiveFieldGenerator.GenerateItems, hp, if_true]
    split <;> rfl
  · intro hp
    simp only [RustPrimitiveFieldGenerator.GenerateItems, hp, Bool.false_eq_true, if_false]

/-- C3 witness: the proto2 int32 field gets the eight-item surface with an
`Option`-typed member, the proto3 one the three-item surface. -/
theorem c3_primitive_field_syntax_shape_witness :
    (RustPrimitiveFieldGenerator.GenerateItems proto2IntField).length = 8
  ∧ (RustPrimitiveFieldGenerator.GenerateItems proto3IntField).length = 3
  ∧ RustPrimitiveFieldGenerator.GetFieldType proto2IntField =
      "__prelude::Option<__prelude::i32>" := by
  refine ⟨?_, ?_, ?_⟩
  · rw [(c3_primitive_field_syntax_shape proto2IntField rfl).2.1 rfl]
    decide
  · rw [(c3_primitive_field_syntax_shape proto3IntField rfl).2.2 rfl]
    decide
  · rw [(c3_primitive_field_syntax_shape proto2IntField rfl).1]
    decide

/-- C4: the wire-type table maps the varint kinds to 0, the 64-bit kinds to
1, the 32-bit kinds to 5, the length-delimited kinds to 2 and GROUP to 3;
any type code outside the table fails with "unknown field type"; and every
merge arm's tag literal is the decimal of `(field_number << 3) | WireType(t)`
(shown for the primitive, singular-message and repeated generators). -/
theorem c4_wire_type_table_and_tags :
    (GetWireType TYPE_INT32 = .ok WT_VARINT
      ∧ GetWireType TYPE_INT64 = .ok WT_VARINT
      ∧ GetWireType TYPE_UINT32 = .ok WT_VARINT
      ∧ GetWireType TYPE_UINT64 = .ok WT_VARINT
      ∧ GetWireType TYPE_SINT32 = .ok WT_VARINT
      ∧ GetWireType TYPE_SINT64 = .ok WT_VARINT
      ∧ GetWireType TYPE_BOOL = .ok WT_VARINT
      ∧ GetWireType TYPE_ENUM = .ok WT_VARINT
      ∧ GetWireType TYPE_FIXED64 = .ok WT_BIT64
      ∧ GetWireType TYPE_SFIXED64 = .ok WT_BIT64
      ∧ GetWireType TYPE_DOUBLE = .ok WT_BIT64
      ∧ GetWireType TYPE_FIXED32 = .ok WT_BIT32
      ∧ GetWireType TYPE_SFIXED32 = .ok WT_BIT32
      ∧ GetWireType TYPE_FLOAT = .ok WT_BIT32
      ∧ GetWireType TYPE_MESSAGE = .ok WT_LENGTH_DELIMITED
      ∧ GetWireType TYPE_BYTES = .ok WT_LENGTH_DELIMITED
      ∧ GetWireType TYPE_STRING = .ok WT_LENGTH_DELIMITED
      ∧ GetWireType TYPE_GROUP = .ok WT_START_GROUP)
  ∧ (∀ c : Nat, c = 0 ∨ 19 ≤ c → GetWireType c = .error "unknown field type")
  ∧ (∀ t : FieldType, GetWireType t.code = .ok (wireTypeOf t))
  ∧ (∀ f : Field, f.number < 2 ^ 29 →
      RustPrimitiveFieldGenerator.GenerateMergeBranches f =
        (if f.proto2 then
          [Nat.repr ((f.number <<< 3) ||| wireTypeOf f.type) ++
             " => field.merge_value::<" ++ GetRawFieldType f.type ++ ">(Self::" ++
             GetFieldNumberName f ++ ", self." ++ GetFieldName f ++
             ".get_or_insert_with(__prelude::Default::default))?,\n"]
        else
          [Nat.repr ((f.number <<< 3) ||| wireTypeOf f.type) ++
             " => field.merge_value::<" ++ GetRawFieldType f.type ++ ">(Self::" ++
             GetFieldNumberName f ++ ", &mut self." ++ GetFieldName f ++ ")?,\n"])
    ∧ RustMessageFieldGenerator.GenerateMergeBranches f =
        [Nat.repr ((f.number <<< 3) ||| wireTypeOf f.type) ++
           " =>\n  match &mut self." ++ f.name ++
           " \x7b\n    __prelude::Some(v) => field.merge_value::<" ++
           GetRawFieldType f.type ++ ">(Self::" ++ GetFieldNumberName f ++
           ", v)?,\n    opt @ __prelude::None => *opt = __prelude::Some(__prelude::Box::new(field.read_value::<" ++
           GetRawFieldType f.type ++ ">(Self::" ++ GetFieldNumberName f ++ ")?)),\n  \x7d,\n"]
    ∧ (Nat.repr ((f.number <<< 3) ||| wireTypeOf f.type) ++
         " => field.add_entries_to::<_, " ++ GetRawFieldType f.type ++ ">(Self::" ++
         GetFieldNumberName f ++ ", &mut self." ++ f.name ++ ")?,\n") ∈
        RustRepeatedFieldGenerator.GenerateMergeBranches f) := by
  refine ⟨⟨rfl, rfl, rfl, rfl, rfl, rfl, rfl, rfl, rfl, rfl, rfl, rfl, rfl, rfl,
    rfl, rfl, rfl, rfl⟩, ?_, ?_, ?_⟩
  · rintro c (rfl | hc)
    · rfl
    · obtain ⟨n, rfl⟩ : ∃ n, c = n + 19 := ⟨c - 19, by omega⟩
      rfl
  · intro t
    cases t <;> rfl
  · intro f hn
    have hu : MakeTag f.number (wireTypeOf f.type) = (f.number <<< 3) ||| wireTypeOf f.type :=
      MakeTag_eq_lor _ _ hn (wireTypeOf_lt f.type)
    refine ⟨?_, ?_, ?_⟩
    · simp only [RustPrimitiveFieldGenerator.GenerateMergeBranches, hu]
    · simp only [RustMessageFieldGenerator.GenerateMergeBranches, hu]
    · simp only [RustRepeatedFieldGenerator.GenerateMergeBranches,
        RustRepeatedFieldGenerator.GetImplGenericArg, hu]
      split
      · split <;> simp
      · simp

/-- C4 witness: code 0 and code 19 fail with "unknown field type", and the
proto3 int32 field `count = 7` gets the single tag-56 merge arm. -/
theorem c4_wire_type_table_and_tags_witness :
    GetWireType 0 = .error "unknown field type"
  ∧ GetWireType 19 = .error "unknown field type"
  ∧ RustPrimitiveFieldGenerator.GenerateMergeBranches proto3IntField =
      ["56 => field.merge_value::<__prelude::pr::Int32>(Self::COUNT_NUMBER, &mut self.count)?,\n"] := by
  refine ⟨c4_wire_type_table_and_tags.2.1 0 (Or.inl rfl),
    c4_wire_type_table_and_tags.2.1 19 (Or.inr (by norm_num)), ?_⟩
  rw [(c4_wire_type_table_and_tags.2.2.2 proto3IntField (by decide)).1]
  decide

/-- C8: GenerateAll fails exactly when the parameter string contains a key
other than `file_extension` and `imports`: on the first offending key it
returns false with error "Unknown generator option: <key>" and opens no
output; with only recognized keys it succeeds. The last conjunct ties the
absence of an offending key in the splitter's output to the recognized-key
condition. -/
theorem c8_unknown_option_error (parameter : String) (files : List FileDesc)
    (context : String → Bool) :
    (∀ kv, (ParseGeneratorParameter parameter).find? unknownKey = some kv →
      RustGenerator.GenerateAll files parameter context =
        { ok := false, error := "Unknown generator option: " ++ kv.1, opened := [] })
  ∧ ((ParseGeneratorParameter parameter).find? unknownKey = none →
      (RustGenerator.GenerateAll files parameter context).ok = true)
  ∧ ((ParseGeneratorParameter parameter).find? unknownKey = none ↔
      ∀ kv ∈ ParseGeneratorParameter parameter,
        kv.1 = "file_extension" ∨ kv.1 = "imports") := by
  refine ⟨?_, ?_, ?_⟩
  · intro kv h
    have h2 := parseOptionsLoop_find_some (ParseGeneratorParameter parameter) {} kv h
    simp [RustGenerator.GenerateAll, h2]
  · intro h
    obtain ⟨o, ho⟩ := parseOptionsLoop_find_none (ParseGeneratorParameter parameter) {} h
    simp [RustGenerator.GenerateAll, ho]
  · rw [List.find?_eq_none]
    constructor
    · intro h kv hkv
      have := h kv hkv
      simpa [unknownKey, Decidable.or_iff_not_imp_left] using this
    · intro h kv hkv
      have := h kv hkv
      simp [unknownKey]
      intro h1
      rcases this with h2 | h2
      · exact absurd h2 h1
      · exact h2

/-- C8 witness: the parameter "file_extension=.rs,bogus=1" fails with the
unknown-option message for "bogus" and opens nothing. -/
theorem c8_unknown_option_error_witness :
    RustGenerator.GenerateAll [] "file_extension=.rs,bogus=1" (fun _ => true) =
      { ok := false, error := "Unknown generator option: bogus", opened := [] } :=
  (c8_unknown_option_error "file_extension=.rs,bogus=1" [] (fun _ => true)).1
    ("bogus", "1") (by decide)

/-- C10: whenever every parameter key is recognized, GenerateAll returns true
with an empty error, for every input set and every stream-health oracle; and
the returned flag and error never depend on the oracle at all — no failure
arising after option parsing is surfaced. -/
theorem c10_success_never_inspects_failures :
    (∀ (parameter : String) (files : List FileDesc) (context : String → Bool),
      (∀ kv ∈ ParseGeneratorParameter parameter,
        kv.1 = "file_extension" ∨ kv.1 = "imports") →
      (RustGenerator.GenerateAll files parameter context).ok = true ∧
        (RustGenerator.GenerateAll files parameter context).error = "")
  ∧ (∀ (parameter : String) (files : List FileDesc) (ctxa ctxb : String → Bool),
      (RustGenerator.GenerateAll files parameter ctxa).ok =
        (RustGenerator.GenerateAll files parameter ctxb).ok ∧
      (RustGenerator.GenerateAll files parameter ctxa).error =
        (RustGenerator.GenerateAll files parameter ctxb).error) := by
  constructor
  · intro parameter files context h
    have hnone : (ParseGeneratorParameter parameter).find? unknownKey = none := by
      rw [List.find?_eq_none]
      intro kv hkv
      have := h kv hkv
      simp [unknownKey]
      intro h1
      rcases this with h2 | h2
      · exact absurd h2 h1
      · exact h2
    obtain ⟨o, ho⟩ := parseOptionsLoop_find_none (ParseGeneratorParameter parameter) {} hnone
    constructor <;> simp [RustGenerator.GenerateAll, ho]
  · intro parameter files ctxa ctxb
    unfold RustGenerator.GenerateAll
    cases hp : RustGenerator.parseOptionsLoop {} (ParseGeneratorParameter parameter) <;>
      exact ⟨rfl, rfl⟩

/-- C10 witness: with the recognized parameter "imports=a" the flag is true
and the error empty even under an oracle that fails every stream. -/
theorem c10_success_never_inspects_failures_witness :
    (RustGenerator.GenerateAll [protoFileA] "imports=a" (fun _ => false)).ok = true
  ∧ (RustGenerator.GenerateAll [protoFileA] "imports=a" (fun _ => false)).error = "" :=
  c10_success_never_inspects_failures.1 "imports=a" [protoFileA] (fun _ => false)
    (by decide)

end Protrust
